import Mathlib

/-!
Verification of the archetype-based columnar storage core (table.c).

The embedding below is a shallow model of src/src/table.c.  Buffers
(ecs_vector_t) are modelled at element granularity as lists of natural
numbers together with a capacity, so that the reallocation behaviour of
the growth policy is visible; a NULL vector pointer is `none`.  The
entity index (an external collaborator) is modelled as a partial map
from entity identifiers to location records.  Pointer identity tests in
the source (table->data == data) are modelled by an explicit flag, and
paths on which the C code dereferences a NULL pointer or hits
ecs_abort are modelled as `none` results.
-/

namespace Flecs

/-- Entity / property identifier (ecs_entity_t, modelled as Nat). -/
abbrev EntityId := Nat

/-- A growable vector (ecs_vector_t): the live elements plus the
allocated capacity.  Element values are modelled as naturals; an
uninitialised element is modelled as 0. -/
structure Vec where
  elems : List Nat
  cap : Nat
deriving Repr, DecidableEq

/-- ecs_vector_count; a NULL vector has count 0. -/
def vec_count : Option Vec → Nat
  | none => 0
  | some v => v.elems.length

/-- The elements of a possibly-NULL vector. -/
def vec_elems : Option Vec → List Nat
  | none => []
  | some v => v.elems

/-- Apply a length-preserving edit to the elements of a vector, keeping
its capacity (in-place writes through ecs_vector_first). -/
def vec_map (f : List Nat → List Nat) : Option Vec → Option Vec
  | none => none
  | some v => some { v with elems := f v.elems }

/-- _ecs_vector_add with one uninitialised element: appends a slot and
reports whether the backing buffer was (re)allocated, which happens when
the vector was NULL or was full. -/
def vec_add : Option Vec → Vec × Bool
  | none => (⟨[0], 2⟩, true)
  | some v =>
      if v.elems.length < v.cap then ({ v with elems := v.elems ++ [0] }, false)
      else (⟨v.elems ++ [0], 2 * v.cap + 2⟩, true)

/-- ecs_vector_add followed by writing the new element (the entity-id
append in ecs_table_insert; its reallocation is not tracked there). -/
def vec_push (v : Option Vec) (x : Nat) : Vec :=
  match v with
  | none => ⟨[x], 2⟩
  | some v =>
      if v.elems.length < v.cap then { v with elems := v.elems ++ [x] }
      else ⟨v.elems ++ [x], 2 * v.cap + 2⟩

/-- _ecs_vector_addn: append the given elements, reporting whether the
buffer was (re)allocated (NULL vector, or growth past the capacity). -/
def vec_addn (v : Option Vec) (xs : List Nat) : Vec × Bool :=
  match v with
  | none => (⟨xs, xs.length⟩, true)
  | some v =>
      if v.elems.length + xs.length ≤ v.cap then ({ v with elems := v.elems ++ xs }, false)
      else (⟨v.elems ++ xs, 2 * (v.elems.length + xs.length)⟩, true)

/-- ecs_vector_remove_last. -/
def vec_remove_last (v : Option Vec) : Option Vec :=
  vec_map List.dropLast v

/-- _ecs_vector_remove_index: the last element is moved into slot i and
the count is decreased by one. -/
def vec_remove_index (v : Option Vec) (i : Nat) : Option Vec :=
  vec_map (fun l => (l.set i (l.getLast?.getD 0)).dropLast) v

/-- _ecs_vector_set_count: set the element count, preserving existing
elements; a grown region is uninitialised (modelled as 0). -/
def vec_set_count (v : Option Vec) (n : Nat) : Vec :=
  match v with
  | none => ⟨List.replicate n 0, n⟩
  | some v => ⟨(v.elems ++ List.replicate (n - v.elems.length) 0).take n, max v.cap n⟩

/-- memcpy of src into dst starting at element offset off (writes past
the end of dst are dropped; every use below stays in bounds). -/
def list_blit : List Nat → Nat → List Nat → List Nat
  | dst, _, [] => dst
  | dst, off, x :: xs => list_blit (dst.set off x) (off + 1) xs

/-- ecs_column_t: the resolved element size (0 for a tag) and the
backing buffer. -/
structure Column where
  size : Nat
  data : Option Vec
deriving Repr, DecidableEq

/-- ecs_data_t: the record-identifier list plus one column per type
entry. -/
structure Data where
  entities : Option Vec
  columns : List Column
deriving Repr, DecidableEq

/-- ecs_table_t: the type (ordered property-identifier sequence), the
main data block and the registered observers (queries, as opaque ids). -/
structure Table where
  type : List EntityId
  data : Data
  queries : List Nat
deriving Repr, DecidableEq

/-- ecs_record_t: an entity-index location record. -/
structure Record where
  type : List EntityId
  row : Nat
deriving Repr, DecidableEq

/-- The entity index, an external map from identifier to record. -/
abbrev EntityIndex := EntityId → Option Record

/-- ecs_map_set on the entity index. -/
def idx_set (m : EntityIndex) (e : EntityId) (r : Record) : EntityIndex :=
  fun x => if x = e then some r else m x

/-- The parts of ecs_world_t this core reads and writes. -/
structure World where
  in_progress : Bool
  should_resolve : Bool
deriving Repr, DecidableEq

/-- columns[0].data, as read by insert, grow and merge; the source
indexes the column array directly. -/
def col0_data (cols : List Column) : Option Vec :=
  match cols with
  | [] => none
  | c :: _ => c.data

/-- Notifications produced by activate_table with a NULL query argument:
one (observer, active) event per registered query. -/
def activate_events (t : Table) (active : Bool) : List (Nat × Bool) :=
  t.queries.map (fun q => (q, active))

/-- The alignment invariant of the data model: every non-tag column has
exactly as many elements as the identifier list. -/
def aligned (d : Data) : Prop :=
  ∀ c ∈ d.columns, c.size ≠ 0 → vec_count c.data = vec_count d.entities

instance (d : Data) : Decidable (aligned d) := by
  unfold aligned; infer_instance

structure InsertResult where
  world : World
  block : Data
  index : Int
  reallocd : Bool
  events : List (Nat × Bool)

/-- ecs_table_insert.  The pointer test table->data == data of the
source is modelled by the isMain flag; the result carries the updated
world flags, the updated block, the returned row index and the fired
activation events. -/
def ecs_table_insert (w : World) (t : Table) (d : Data) (isMain : Bool)
    (entity : EntityId) : InsertResult :=
  let entities1 := vec_push d.entities entity
  let step := d.columns.foldl
    (fun (acc : List Column × Bool) c =>
      if c.size ≠ 0 then
        let av := vec_add c.data
        (acc.1 ++ [{ c with data := some av.1 }], acc.2 || av.2)
      else (acc.1 ++ [c], acc.2))
    ([], false)
  let index : Int := (vec_count (col0_data step.1) : Int) - 1
  let events := if w.in_progress = false ∧ index = 0 then activate_events t true else []
  let w1 : World :=
    { w with should_resolve := if step.2 && isMain then true else w.should_resolve }
  ⟨w1, { entities := some entities1, columns := step.1 }, index, step.2, events⟩

structure DeleteResult where
  block : Data
  index_map : EntityIndex
  events : List (Nat × Bool)

/-- ecs_table_delete.  The asserted preconditions of the source (a
non-empty block and index ≤ count-1) are not re-checked; the function
reproduces the code on inputs satisfying them.  In the source the
remove-last loop of the index == count-1 branch starts at column 1, so
column 0 is left untouched there. -/
def ecs_table_delete (w : World) (stageIdx : EntityIndex) (t : Table) (d : Data)
    (index : Nat) : DeleteResult :=
  let count := vec_count d.entities - 1
  let events := if w.in_progress = false ∧ count = 0 then activate_events t false else []
  if index ≠ count then
    let ents := vec_elems d.entities
    let to_move := ents.getD count 0
    let columns1 := d.columns.map (fun c =>
      if c.size ≠ 0 then { c with data := vec_remove_index c.data index } else c)
    let moved_record : Record := { type := t.type, row := index + 1 }
    let idx1 := idx_set stageIdx to_move moved_record
    let entities1 := vec_map (fun l => (l.set index to_move).dropLast) d.entities
    ⟨{ entities := entities1, columns := columns1 }, idx1, events⟩
  else
    let entities1 := vec_remove_last d.entities
    let columns1 :=
      match d.columns with
      | [] => []
      | c0 :: rest =>
          c0 :: rest.map (fun c =>
            if c.size ≠ 0 then { c with data := vec_remove_last c.data } else c)
    ⟨{ entities := entities1, columns := columns1 }, stageIdx, events⟩

structure GrowResult where
  world : World
  block : Data
  row : Int
  reallocd : Bool
  events : List (Nat × Bool)

/-- ecs_table_grow: append count records with sequential identifiers. -/
def ecs_table_grow (w : World) (t : Table) (d : Data) (isMain : Bool)
    (count : Nat) (first : EntityId) : GrowResult :=
  let entities1 := (vec_addn d.entities ((List.range count).map (first + ·))).1
  let step := d.columns.foldl
    (fun (acc : List Column × Bool) c =>
      if c.size ≠ 0 then
        let av := vec_addn c.data (List.replicate count 0)
        (acc.1 ++ [{ c with data := some av.1 }], acc.2 || av.2)
      else (acc.1 ++ [c], acc.2))
    ([], false)
  let row_count := vec_count (col0_data step.1)
  let events := if w.in_progress = false ∧ row_count = count then activate_events t true else []
  let w1 : World :=
    { w with should_resolve := if step.2 && isMain then true else w.should_resolve }
  ⟨w1, { entities := some entities1, columns := step.1 }, (row_count : Int) - count, step.2, events⟩

/-- ecs_table_count. -/
def ecs_table_count (t : Table) : Nat :=
  vec_count t.data.entities

/-- clear_columns: free every column buffer; the identifier list is not
touched by this helper. -/
def clear_columns (d : Data) : Data :=
  { d with columns := d.columns.map (fun c => { c with data := none }) }

structure ClearResult where
  block : Data
  events : List (Nat × Bool)

/-- ecs_table_clear. -/
def ecs_table_clear (t : Table) : ClearResult :=
  let count := vec_count t.data.entities
  let d1 := clear_columns t.data
  ⟨d1, if count ≠ 0 then activate_events t false else []⟩

/-- The element exchange performed at two rows of one buffer. -/
def list_swap (l : List Nat) (a b : Nat) : List Nat :=
  (l.set a (l.getD b 0)).set b (l.getD a 0)

/-- ecs_table_swap with NULL record-pointer arguments, so both records
are fetched from the stage's entity index; a record missing from the
index is a NULL dereference in the source, modelled as none. -/
def ecs_table_swap (stageIdx : EntityIndex) (t : Table) (d : Data)
    (row_1 row_2 : Nat) : Option (EntityIndex × Data) :=
  if row_1 = row_2 then some (stageIdx, d)
  else
    let ents := vec_elems d.entities
    let e1 := ents.getD row_1 0
    let e2 := ents.getD row_2 0
    match stageIdx e1, stageIdx e2 with
    | some r1, some r2 =>
        let ents1 := list_swap ents row_1 row_2
        let idx1 :=
          idx_set (idx_set stageIdx e1 { r1 with row := row_2 + 1 }) e2
            { r2 with row := row_1 + 1 }
        let columns1 := d.columns.map (fun c =>
          if c.size ≠ 0 then
            { c with data := vec_map (fun l => list_swap l row_1 row_2) c.data }
          else c)
        some (idx1, { entities := vec_map (fun _ => ents1) d.entities, columns := columns1 })
    | _, _ => none

/-- merge_vector.  The destination is adopted from the source when it is
empty; otherwise it is resized to the sum of the counts and the source
elements are copied in at element offset src_count, exactly as the
source's memcpy does.  The byte-level size argument of the source is
dropped: buffers are modelled at element granularity. -/
def merge_vector (dst src : Option Vec) : Option Vec :=
  let dst_count := vec_count dst
  if dst_count = 0 then src
  else
    let src_count := vec_count src
    let grown := vec_set_count dst (dst_count + src_count)
    some { grown with elems := list_blit grown.elems src_count (vec_elems src) }

/-- ECS_ENTITY_FLAGS_MASK (the CHILDOF and INSTANCEOF role bits from the
library header). -/
def ECS_ENTITY_FLAGS_MASK : Nat := 2 ^ 63 + 2 ^ 62

/-- The two-pointer column scan of ecs_table_merge.  At position i_new
the source compares new_components[i_new - 1] with
old_components[i_old - 1] (at i_new = 0 both read as 0) and merges,
skips or aborts; ecs_abort is modelled as none.  The fuel argument is a
structural bound on the iteration count. -/
def merge_scan (fuel : Nat) (new_components old_components : List EntityId)
    (i_new i_old : Nat) (new_columns old_columns : List Column) :
    Option (List Column × List Column) :=
  match fuel with
  | 0 => none
  | fuel + 1 =>
    if i_new < new_components.length then
      if i_old = old_components.length then some (new_columns, old_columns)
      else
        let new_component := if i_new ≠ 0 then new_components.getD (i_new - 1) 0 else 0
        let old_component := if i_new ≠ 0 then old_components.getD (i_old - 1) 0 else 0
        if Nat.land new_component ECS_ENTITY_FLAGS_MASK ≠ 0 ∨
            Nat.land old_component ECS_ENTITY_FLAGS_MASK ≠ 0 then
          some (new_columns, old_columns)
        else if new_component = old_component then
          let nc := new_columns.getD i_new ⟨0, none⟩
          let oc := old_columns.getD i_old ⟨0, none⟩
          merge_scan fuel new_components old_components (i_new + 1) (i_old + 1)
            (new_columns.set i_new { nc with data := merge_vector nc.data oc.data })
            (old_columns.set i_old { oc with data := none })
        else if new_component < old_component then
          none
        else
          let oc := old_columns.getD i_old ⟨0, none⟩
          merge_scan fuel new_components old_components i_new (i_old + 1)
            new_columns (old_columns.set i_old { oc with data := none })
    else some (new_columns, old_columns)

structure MergeResult where
  new_block : Data
  old_block : Data
  index_map : EntityIndex

/-- ecs_table_merge.  Returns none when the source aborts with
ECS_INTERNAL_ERROR inside the scan, or when the destination table is
absent: the source reads new_table->data before its NULL check on
new_table, a NULL dereference.  mainIdx is the world's main-stage
entity index. -/
def ecs_table_merge (mainIdx : EntityIndex) (new_table : Option Table)
    (old_table : Table) : Option MergeResult :=
  match new_table with
  | none => none
  | some nt =>
    let new_type := nt.type
    let new_data := nt.data
    let old_data := old_table.data
    let new_columns := new_data.columns
    let old_columns := old_data.columns
    let old_count := vec_count (col0_data old_columns)
    let new_count := vec_count (col0_data new_columns)
    let old_entities := vec_elems old_data.entities
    let idx1 := (List.range old_count).foldl
      (fun m i => idx_set m (old_entities.getD i 0) { type := new_type, row := i + new_count })
      mainIdx
    if old_count = 0 then
      some ⟨new_data, old_data, idx1⟩
    else
      match merge_scan (new_type.length + old_table.type.length + 1) new_type
          old_table.type 0 0 new_columns old_columns with
      | none => none
      | some cols =>
        let merged_entities := merge_vector new_data.entities old_data.entities
        some ⟨{ entities := merged_entities, columns := cols.1 },
              { entities := none, columns := cols.2 }, idx1⟩

/-- Row observer: the identifier list of a block. -/
def entsOf (d : Data) : List Nat :=
  vec_elems d.entities

/-- Column observer: the elements of column i of a block. -/
def colElems (d : Data) (i : Nat) : List Nat :=
  vec_elems ((d.columns[i]?.getD ⟨0, none⟩).data)

theorem list_swap_length (l : List Nat) (a b : Nat) :
    (list_swap l a b).length = l.length := by
  simp [list_swap]

theorem list_swap_getElem_left (l : List Nat) {a b : Nat} (hab : a ≠ b)
    (ha : a < l.length) (hb : b < l.length) : (list_swap l a b)[a]? = l[b]? := by
  unfold list_swap
  rw [List.getElem?_set_ne (Ne.symm hab), List.getElem?_set_self (by simpa using ha)]
  simp [List.getElem?_eq_getElem hb]

theorem list_swap_getElem_right (l : List Nat) {a b : Nat} (ha : a < l.length)
    (hb : b < l.length) : (list_swap l a b)[b]? = l[a]? := by
  unfold list_swap
  rw [List.getElem?_set_self (by simpa using hb)]
  simp [List.getElem?_eq_getElem ha]

theorem list_swap_getElem_other (l : List Nat) {a b j : Nat} (hja : j ≠ a)
    (hjb : j ≠ b) : (list_swap l a b)[j]? = l[j]? := by
  unfold list_swap
  rw [List.getElem?_set_ne (Ne.symm hjb), List.getElem?_set_ne (Ne.symm hja)]

theorem list_swap_invol (l : List Nat) {a b : Nat} (hab : a ≠ b)
    (ha : a < l.length) (hb : b < l.length) :
    list_swap (list_swap l a b) a b = l := by
  apply List.ext_getElem?
  intro n
  by_cases hna : n = a
  · subst hna
    rw [list_swap_getElem_left _ hab (by simpa [list_swap_length] using ha)
      (by simpa [list_swap_length] using hb)]
    exact list_swap_getElem_right l ha hb
  · by_cases hnb : n = b
    · subst hnb
      rw [list_swap_getElem_right _ (by simpa [list_swap_length] using ha)
        (by simpa [list_swap_length] using hb)]
      exact list_swap_getElem_left l hab ha hb
    · rw [list_swap_getElem_other _ hna hnb, list_swap_getElem_other _ hna hnb]

/- Concrete states used to evaluate the operations. -/

def c1_world : World := ⟨false, false⟩
def c1_idx : EntityIndex := fun _ => none
def c1_block : Data := ⟨some ⟨[101], 1⟩, [⟨8, some ⟨[11], 1⟩⟩]⟩
def c1_table : Table := ⟨[5], c1_block, []⟩

/-- C1: the alignment invariant is claimed to hold after every core
operation.  The code breaks it: deleting the last row of a 1-row block
whose first type entry is a non-tag column leaves that column with one
element while the identifier list becomes empty, because the remove-last
loop of ecs_table_delete starts at column 1. -/
theorem c1_delete_breaks_alignment :
    aligned c1_block ∧
    ¬ aligned (ecs_table_delete c1_world c1_idx c1_table c1_block 0).block := by
  decide

def c2_world : World := ⟨false, false⟩
def c2_idx : EntityIndex := fun _ => none
def c2_block : Data := ⟨some ⟨[201], 1⟩, [⟨4, some ⟨[77], 1⟩⟩]⟩
def c2_table : Table := ⟨[6], c2_block, []⟩

/-- C2: the swap-remove contract claims the tail element is dropped from
every non-tag column in both the moved and the last-row cases.  Deleting
row 0 of a 1-row block (the r = n-1 case) leaves column 0 still holding
its element while the identifier list is emptied. -/
theorem c2_delete_last_row_keeps_column_tail :
    vec_count (col0_data (ecs_table_delete c2_world c2_idx c2_table c2_block 0).block.columns) = 1 ∧
    vec_count (ecs_table_delete c2_world c2_idx c2_table c2_block 0).block.entities = 0 := by
  decide

def c3_idx : EntityIndex := fun _ => none
def c3_dst : Table :=
  ⟨[21, 22], ⟨some ⟨[100, 200], 2⟩, [⟨8, some ⟨[10, 20], 2⟩⟩, ⟨8, some ⟨[40, 50], 2⟩⟩]⟩, []⟩
def c3_src : Table := ⟨[21], ⟨some ⟨[300], 1⟩, [⟨8, some ⟨[30], 1⟩⟩]⟩, []⟩

/-- C3: the merge superset law claims the source column data is appended
after the destination's existing data.  Merging a 1-row source {x} block
into a 2-row destination {x,y} block writes the source element at offset
src_count = 1 (merge_vector copies at offset size * src_count instead of
size * dst_count), overwriting the destination's second element: element
1 of the merged x column is the source value 30 where the claim requires
the destination value 20, with 30 at element 2. -/
theorem c3_merge_overwrites_destination_data :
    (ecs_table_merge c3_idx (some c3_dst) c3_src).map
        (fun r => ((vec_elems (col0_data r.new_block.columns))[1]?,
                   vec_count (col0_data r.new_block.columns)))
      = some (some 30, 3) := by
  decide

def c4_world : World := ⟨false, false⟩
def c4_block : Data := ⟨none, [⟨0, none⟩]⟩
def c4_table : Table := ⟨[31], c4_block, [7]⟩

/-- C4: the claim says an insert taking the main block from 0 to 1 rows
fires one became-non-empty notification to every registered observer.
For an archetype whose first type entry is a tag, the activation test of
ecs_table_insert reads ecs_vector_count(columns[0].data) - 1 = -1
instead of the row count, so the first insert fires nothing although the
block goes from 0 to 1 rows and an observer is registered. -/
theorem c4_tag_first_insert_fires_no_activation :
    (ecs_table_insert c4_world c4_table c4_block true 401).events = [] ∧
    vec_count (ecs_table_insert c4_world c4_table c4_block true 401).block.entities = 1 ∧
    c4_table.queries = [7] := by
  decide

def c5_idx : EntityIndex := fun e => if e = 7 then some ⟨[41], 1⟩ else none
def c5_dst : Table := ⟨[41, 42], ⟨none, [⟨8, none⟩, ⟨8, none⟩]⟩, []⟩
def c5_src : Table := ⟨[41], ⟨some ⟨[7], 1⟩, [⟨8, some ⟨[55], 1⟩⟩]⟩, []⟩

/-- C5: the claim says every row value this core writes into the entity
index is the new 0-based row plus one, so 0 is never stored for a
located record.  The per-record rewrite of ecs_table_merge stores
row = i + new_count without the +1: merging a 1-row source into an empty
destination stores row 0 (the documented "no location" sentinel) for the
record that lands at 0-based row 0, where the claim requires 1. -/
theorem c5_merge_stores_zero_based_row :
    (ecs_table_merge c5_idx (some c5_dst) c5_src).map (fun r => r.index_map 7)
      = some (some ⟨[41, 42], 0⟩) := by
  decide

def c6_world : World := ⟨false, false⟩
def c6_block : Data := ⟨none, [⟨0, none⟩]⟩
def c6_table : Table := ⟨[51], c6_block, []⟩

/-- C6: insert is claimed to return the 0-based row of the new record,
i.e. the prior row count n.  The code returns
ecs_vector_count(columns[0].data) - 1, which for an archetype whose
first type entry is a tag (no buffer) is -1 regardless of the row count:
inserting into an empty tag-only block returns -1 instead of 0. -/
theorem c6_insert_returns_wrong_row_for_tag_first :
    (ecs_table_insert c6_world c6_table c6_block true 501).index = -1 ∧
    vec_count (ecs_table_insert c6_world c6_table c6_block true 501).block.entities = 1 := by
  decide

def c7_block : Data := ⟨some ⟨[601, 602], 2⟩, [⟨8, some ⟨[1, 2], 2⟩⟩]⟩
def c7_table : Table := ⟨[61], c7_block, [9]⟩

/-- C7: clear is claimed to free every column buffer and the identifier
list, leaving zero rows.  The code frees the column buffers and fires
the became-empty notification, but never touches the identifier list:
after clearing a 2-row block the row count is still 2. -/
theorem c7_clear_keeps_identifier_list :
    vec_count (ecs_table_clear c7_table).block.entities = 2 ∧
    (ecs_table_clear c7_table).block.columns = [⟨8, none⟩] ∧
    (ecs_table_clear c7_table).events = [(9, false)] := by
  decide

def c8_world : World := ⟨false, false⟩
def c8_full : Data := ⟨some ⟨[3], 1⟩, [⟨8, some ⟨[3], 1⟩⟩]⟩
def c8_table : Table := ⟨[81], c8_full, []⟩

theorem flag_if_or (b c : Bool) : (if b = true then true else c) = (c || b) := by
  cases b <;> cases c <;> rfl

/-- C8: after an insert or grow, the world's should-resolve flag equals
its old value or-ed with (a non-tag column was reallocated and the
written block is the main block): a reallocating write to the main block
raises it and a reallocating write to an overlay block leaves it
unchanged; concretely, inserting into a full one-column block raises the
flag when the block is the main block and not when it is an overlay. -/
theorem c8_realloc_flag_set_iff_main (w : World) (t : Table) (d : Data)
    (isMain : Bool) (e : EntityId) (n first : Nat) :
    ((ecs_table_insert w t d isMain e).world.should_resolve
        = (w.should_resolve || ((ecs_table_insert w t d isMain e).reallocd && isMain)))
    ∧ ((ecs_table_grow w t d isMain n first).world.should_resolve
        = (w.should_resolve || ((ecs_table_grow w t d isMain n first).reallocd && isMain)))
    ∧ (ecs_table_insert c8_world c8_table c8_full true 900).reallocd = true
    ∧ (ecs_table_insert c8_world c8_table c8_full true 900).world.should_resolve = true
    ∧ (ecs_table_insert c8_world c8_table c8_full false 900).reallocd = true
    ∧ (ecs_table_insert c8_world c8_table c8_full false 900).world.should_resolve = false := by
  refine ⟨?_, ?_, by decide, by decide, by decide, by decide⟩
  · exact flag_if_or ((ecs_table_insert w t d isMain e).reallocd && isMain) w.should_resolve
  · exact flag_if_or ((ecs_table_grow w t d isMain n first).reallocd && isMain) w.should_resolve

def c9_idx : EntityIndex := fun _ => none
def c9_dst : Table := ⟨[71], ⟨some ⟨[701], 1⟩, [⟨8, some ⟨[1], 1⟩⟩]⟩, []⟩
def c9_src : Table := ⟨[72], ⟨some ⟨[702], 1⟩, [⟨8, some ⟨[2], 1⟩⟩]⟩, []⟩

/-- C9: merging a source whose property (72) does not occur in the
destination's type [71] is claimed to hit the fatal
internal-consistency abort during the two-pointer scan.  Because the
scan compares the identifiers at position i-1 (treating position 0 as an
unnamed entity column), the first positions always compare equal and
this merge runs to completion (isSome, i.e. no abort) although the
source type is not a subset of the destination type. -/
theorem c9_non_superset_merge_completes_without_abort :
    72 ∉ c9_dst.type ∧ 72 ∈ c9_src.type ∧
    (ecs_table_merge c9_idx (some c9_dst) c9_src).isSome = true := by
  decide

/-- C10: swap algebra.  Swapping a row with itself leaves the block and
the entity index unchanged.  For two distinct in-bounds rows a and b of
an aligned block whose two records are present in the index at their
consistent 1-based rows, swap exchanges the identifiers and every
non-tag column element at the two rows, stores rows b+1 and a+1 in the
two records, leaves every other index entry unchanged, and applying the
same swap a second time restores the block and both index entries. -/
theorem c10_swap_algebra (idx : EntityIndex) (t : Table) (d : Data) (a b : Nat)
    (r1 r2 : Record)
    (hab : a ≠ b)
    (ha : a < (entsOf d).length)
    (hb : b < (entsOf d).length)
    (hal : aligned d)
    (hne : (entsOf d).getD a 0 ≠ (entsOf d).getD b 0)
    (h1 : idx ((entsOf d).getD a 0) = some r1)
    (h2 : idx ((entsOf d).getD b 0) = some r2)
    (hr1 : r1.row = a + 1) (hr2 : r2.row = b + 1) :
    ecs_table_swap idx t d a a = some (idx, d)
    ∧ ∃ p : EntityIndex × Data, ecs_table_swap idx t d a b = some p
        ∧ entsOf p.2 = list_swap (entsOf d) a b
        ∧ (∀ i, i < d.columns.length → (d.columns[i]?.getD ⟨0, none⟩).size ≠ 0 →
            colElems p.2 i = list_swap (colElems d i) a b)
        ∧ p.1 ((entsOf d).getD a 0) = some ⟨r1.type, b + 1⟩
        ∧ p.1 ((entsOf d).getD b 0) = some ⟨r2.type, a + 1⟩
        ∧ (∀ x, x ≠ (entsOf d).getD a 0 → x ≠ (entsOf d).getD b 0 → p.1 x = idx x)
        ∧ ecs_table_swap p.1 t p.2 a b = some (idx, d) := by
  constructor
  · simp [ecs_table_swap]
  · obtain ⟨ty1, ro1⟩ := r1
    obtain ⟨ty2, ro2⟩ := r2
    change ro1 = a + 1 at hr1
    change ro2 = b + 1 at hr2
    subst hr1
    subst hr2
    obtain ⟨dents, dcols⟩ := d
    cases dents with
    | none => simp [entsOf, vec_elems] at ha
    | some v =>
      obtain ⟨ve, vc⟩ := v
      simp only [entsOf, vec_elems] at ha hb hne h1 h2 ⊢
      have hswap : ecs_table_swap idx t ⟨some ⟨ve, vc⟩, dcols⟩ a b =
          some (idx_set (idx_set idx (ve.getD a 0) ⟨ty1, b + 1⟩) (ve.getD b 0)
                  ⟨ty2, a + 1⟩,
                ⟨some ⟨list_swap ve a b, vc⟩,
                 dcols.map (fun c =>
                   if c.size ≠ 0 then
                     { c with data := vec_map (fun l => list_swap l a b) c.data }
                   else c)⟩) := by
        simp only [ecs_table_swap, if_neg hab, vec_elems, h1, h2, vec_map]
      refine ⟨_, hswap, ?_, ?_, ?_, ?_, ?_, ?_⟩
      · rfl
      · intro i hi hsz
        have hcol : dcols[i]? = some dcols[i] := List.getElem?_eq_getElem hi
        rw [hcol] at hsz
        simp only [Option.getD_some] at hsz
        simp only [colElems, List.getElem?_map, hcol, Option.map_some', Option.getD_some,
          if_pos hsz]
        cases hdata : dcols[i].data with
        | none => simp [vec_map, vec_elems, list_swap]
        | some u => simp [vec_map, vec_elems]
      · simp only [idx_set]
        rw [if_neg hne]
        exact if_pos trivial
      · simp only [idx_set]
        exact if_pos trivial
      · intro x hxa hxb
        simp only [idx_set]
        rw [if_neg hxb, if_neg hxa]
      · have he1 : (list_swap ve a b).getD a 0 = ve.getD b 0 := by
          simp only [List.getD_eq_getElem?_getD, list_swap_getElem_left ve hab ha hb]
        have he2 : (list_swap ve a b).getD b 0 = ve.getD a 0 := by
          simp only [List.getD_eq_getElem?_getD, list_swap_getElem_right ve ha hb]
        have hI1 : (idx_set (idx_set idx (ve.getD a 0) ⟨ty1, b + 1⟩) (ve.getD b 0)
            ⟨ty2, a + 1⟩) (ve.getD a 0) = some ⟨ty1, b + 1⟩ := by
          simp only [idx_set]
          rw [if_neg hne]
          exact if_pos trivial
        have hI2 : (idx_set (idx_set idx (ve.getD a 0) ⟨ty1, b + 1⟩) (ve.getD b 0)
            ⟨ty2, a + 1⟩) (ve.getD b 0) = some ⟨ty2, a + 1⟩ := by
          simp only [idx_set]
          exact if_pos trivial
        have hidx : idx_set (idx_set (idx_set (idx_set idx (ve.getD a 0) ⟨ty1, b + 1⟩)
            (ve.getD b 0) ⟨ty2, a + 1⟩) (ve.getD b 0) ⟨ty2, b + 1⟩) (ve.getD a 0)
            ⟨ty1, a + 1⟩ = idx := by
          funext x
          by_cases hxa : x = ve.getD a 0
          · subst hxa
            simp only [idx_set]
            rw [if_pos trivial, h1]
          · by_cases hxb : x = ve.getD b 0
            · subst hxb
              simp only [idx_set]
              rw [if_neg (Ne.symm hne), if_pos trivial, h2]
            · simp only [idx_set]
              rw [if_neg hxa, if_neg hxb, if_neg hxb, if_neg hxa]
        have hcols :
            ((dcols.map (fun c =>
                if c.size ≠ 0 then
                  { c with data := vec_map (fun l => list_swap l a b) c.data }
                else c)).map (fun c =>
                if c.size ≠ 0 then
                  { c with data := vec_map (fun l => list_swap l a b) c.data }
                else c)) = dcols := by
          rw [List.map_map]
          refine (List.map_congr_left ?_).trans (List.map_id _)
          intro c hc
          obtain ⟨cs, cd⟩ := c
          simp only [Function.comp_apply, id_eq]
          by_cases hsz : cs = 0
          · simp [hsz]
          · have hlen := hal ⟨cs, cd⟩ hc hsz
            simp only [vec_count] at hlen
            cases cd with
            | none =>
              simp only [vec_count] at hlen
              omega
            | some u =>
              obtain ⟨ue, uc⟩ := u
              simp only [vec_count] at hlen
              simp [hsz, vec_map,
                list_swap_invol ue hab (by omega) (by omega)]
        simp only [ecs_table_swap, if_neg hab, vec_elems, vec_map, he1, he2, hI1, hI2,
          list_swap_invol ve hab ha hb, hidx]
        simp only [vec_map] at hcols
        rw [hcols]

def c10_idx : EntityIndex := fun e =>
  if e = 21 then some ⟨[81], 1⟩ else if e = 22 then some ⟨[81], 2⟩ else none
def c10_block : Data := ⟨some ⟨[21, 22], 2⟩, [⟨8, some ⟨[5, 6], 2⟩⟩]⟩
def c10_table : Table := ⟨[81], c10_block, []⟩

/-- Witness for C10 at a concrete aligned 2-row one-column block with a
consistent entity index. -/
theorem c10_swap_algebra_witness :
    ecs_table_swap c10_idx c10_table c10_block 0 0 = some (c10_idx, c10_block)
    ∧ ∃ p : EntityIndex × Data, ecs_table_swap c10_idx c10_table c10_block 0 1 = some p
        ∧ entsOf p.2 = [22, 21]
        ∧ (∀ i, i < 1 → ((c10_block.columns[i]?).getD ⟨0, none⟩).size ≠ 0 →
            colElems p.2 i = list_swap (colElems c10_block i) 0 1)
        ∧ p.1 21 = some ⟨[81], 2⟩
        ∧ p.1 22 = some ⟨[81], 1⟩
        ∧ (∀ x, x ≠ 21 → x ≠ 22 → p.1 x = c10_idx x)
        ∧ ecs_table_swap p.1 c10_table p.2 0 1 = some (c10_idx, c10_block) :=
  c10_swap_algebra c10_idx c10_table c10_block 0 1 ⟨[81], 1⟩ ⟨[81], 2⟩
    (by decide) (by decide) (by decide) (by decide) (by decide)
    (by decide) (by decide) (by decide) (by decide)

end Flecs
